import Mathlib

/-!
# Solar Flare Analyser — verification development

Shallow embedding of `src/app.py` (a fetch → reshape → chart pipeline over
NASA DONKI solar-flare records) and proofs about its behaviour.

Raw upstream records are JSON objects; we model JSON values and records as
association lists, Python `KeyError` / `IndexError` / `TypeError` as
`Except String`, and pandas DataFrames built from a list of uniform dicts
as a list of `FlareRow` (a frame built from the empty list has no columns,
so column access on it fails, as in pandas).
-/

mutual

/-- A JSON value as delivered by the upstream API (only the shapes the
program touches: null, strings, integers, lists). `JList` is a list of
JSON values (mutual with `JValue`). -/
inductive JValue where
  | null
  | str (s : String)
  | num (n : Int)
  | list (xs : JList)
deriving DecidableEq, Repr

inductive JList where
  | nil
  | cons (x : JValue) (xs : JList)
deriving DecidableEq, Repr

end

/-- Number of elements of a JSON list. -/
def JList.length : JList → Nat
  | .nil => 0
  | .cons _ xs => 1 + xs.length

/-- Whether a JSON list is empty. -/
def JList.isEmpty : JList → Bool
  | .nil => true
  | .cons _ _ => false

/-- A raw flare record: a JSON object, modelled as an association list from
field name to value (Python dict; `lookup` is key membership). -/
abbrev JRecord := List (String × JValue)

/-- Python bracket access `rec[k]`: the value when the key is present
(possibly `null`), a `KeyError` otherwise. -/
def JRecord.getItem (r : JRecord) (k : String) : Except String JValue :=
  match r.lookup k with
  | some v => .ok v
  | none => .error ("KeyError: " ++ k)

/-- Python `rec.get(k, d)`: the value when the key is present, the default
otherwise. -/
def JRecord.getD (r : JRecord) (k : String) (d : JValue) : JValue :=
  (r.lookup k).getD d

/-- Python truthiness for the JSON values above: `None`, `0`, `""` and `[]`
are falsy, everything else truthy. -/
def JValue.truthy : JValue → Bool
  | .null => false
  | .str s => !s.isEmpty
  | .num n => n != 0
  | .list xs => !xs.isEmpty

/-- Python `len`: defined on lists and strings, a `TypeError` otherwise. -/
def pyLen : JValue → Except String Nat
  | .list xs => .ok xs.length
  | .str s => .ok s.length
  | _ => .error "TypeError: object has no len"

/-- Python `x or y` restricted to a default of `[]`, as in
`flare.get('linkedEvents', []) or []` (line 37 of app.py). -/
def orEmptyList (v : JValue) : JValue :=
  if v.truthy then v else .list .nil

/-- One row of the working table, as built by `process_data` (app.py
lines 29–39): the seven directly-indexed fields are kept as JSON values,
the two optional list fields are collapsed to their lengths. -/
structure FlareRow where
  flrID : JValue
  beginTime : JValue
  peakTime : JValue
  endTime : JValue
  classType : JValue
  sourceLocation : JValue
  activeRegionNum : JValue
  linkedEvents : Nat
  instruments : Nat
deriving DecidableEq, Repr

/-- The per-record body of the loop in `process_data` (app.py lines 29–39):
bracket access on the seven named fields (each raising `KeyError` when the
key is absent, in source order), and `len(flare.get(k, []) or [])` for the
two optional list fields. -/
def processRecord (flare : JRecord) : Except String FlareRow := do
  let flrID ← flare.getItem "flrID"
  let beginTime ← flare.getItem "beginTime"
  let peakTime ← flare.getItem "peakTime"
  let endTime ← flare.getItem "endTime"
  let classType ← flare.getItem "classType"
  let sourceLocation ← flare.getItem "sourceLocation"
  let activeRegionNum ← flare.getItem "activeRegionNum"
  let linkedEvents ← pyLen (orEmptyList (flare.getD "linkedEvents" (.list .nil)))
  let instruments ← pyLen (orEmptyList (flare.getD "instruments" (.list .nil)))
  return ⟨flrID, beginTime, peakTime, endTime, classType, sourceLocation,
          activeRegionNum, linkedEvents, instruments⟩

/-- `process_data` (app.py lines 25–41): one output row per input record, in
input order; the first failing record aborts the whole transformation. -/
def process_data : List JRecord → Except String (List FlareRow)
  | [] => .ok []
  | flare :: rest => do
    let row ← processRecord flare
    let rows ← process_data rest
    return row :: rows

/-- An upstream HTTP response: a status code and the decoded JSON-array
body (the program only ever reads the body after checking status 200). -/
structure HttpResponse where
  status : Nat
  body : List JRecord
deriving DecidableEq, Repr

/-- `get_solar_flare_data` (app.py lines 11–23): return the decoded JSON
array on status 200, otherwise raise an exception whose message carries the
upstream status code. -/
def get_solar_flare_data (response : HttpResponse) : Except String (List JRecord) :=
  if response.status = 200 then
    .ok response.body
  else
    .error ("API call failed with status code " ++ toString response.status)

/-- Column access `df[name]` on the DataFrame built by `process_data`: a
frame built from a non-empty list of uniform dicts has all nine columns; a
frame built from the empty list has no columns at all, so any column access
raises `KeyError` (pandas `pd.DataFrame([])` is a 0×0 frame). -/
def getColumn (df : List FlareRow) (name : String) (proj : FlareRow → JValue) :
    Except String (List JValue) :=
  if df.isEmpty then .error ("KeyError: " ++ name) else .ok (df.map proj)

/-- pandas `Series.value_counts` over a column: one entry per distinct
value with its number of occurrences (pandas orders entries by descending
count; the spec leaves rendering order unspecified, and no claim depends on
it, so first-appearance order is used here). -/
def value_counts (xs : List JValue) : List (JValue × Nat) :=
  xs.eraseDups.map fun v => (v, xs.count v)

/-- Elementwise application over a column (pandas `Series.apply` /
`pd.to_datetime` over a Series): evaluated left to right, the first raising
element aborts. -/
def mapColumn (f : JValue → Except String β) : List JValue → Except String (List β)
  | [] => .ok []
  | x :: xs => do
    let y ← f x
    let ys ← mapColumn f xs
    return y :: ys

/-- Days from 1970-01-01 (the civil-calendar day-number algorithm used by
datetime libraries; proleptic Gregorian). -/
def daysFromCivil (y m d : Int) : Int :=
  let yAdj := if m ≤ 2 then y - 1 else y
  let era := Int.fdiv yAdj 400
  let yoe := yAdj - era * 400
  let mp := Int.emod (m + 9) 12
  let doy := Int.fdiv (153 * mp + 2) 5 + d - 1
  let doe := yoe * 365 + Int.fdiv yoe 4 - Int.fdiv yoe 100 + doy
  era * 146097 + doe - 719468

/-- Value of a decimal digit character. -/
def digitVal (c : Char) : Option Nat :=
  if c.isDigit then some (c.toNat - 48) else none

/-- Two decimal digit characters as a number. -/
def twoDigits (a b : Char) : Option Nat := do
  pure ((← digitVal a) * 10 + (← digitVal b))

/-- Four decimal digit characters as a number. -/
def fourDigits (a b c d : Char) : Option Nat := do
  pure (((← twoDigits a b)) * 100 + (← twoDigits c d))

/-- Parse one upstream timestamp string `YYYY-MM-DDTHH:MMZ` (the
minute-precision UTC format the DONKI endpoint delivers) to minutes since
the 1970-01-01 epoch; `none` on any other shape. -/
def parseTimestamp (s : String) : Option Int :=
  match s.data with
  | [y1, y2, y3, y4, '-', m1, m2, '-', d1, d2, 'T', h1, h2, ':', n1, n2, 'Z'] => do
    let y ← fourDigits y1 y2 y3 y4
    let m ← twoDigits m1 m2
    let d ← twoDigits d1 d2
    let h ← twoDigits h1 h2
    let n ← twoDigits n1 n2
    if 1 ≤ m ∧ m ≤ 12 ∧ 1 ≤ d ∧ d ≤ 31 ∧ h ≤ 23 ∧ n ≤ 59 then
      some (daysFromCivil (y : Int) (m : Int) (d : Int) * 1440 + (h : Int) * 60 + (n : Int))
    else none
  | _ => none

/-- `pd.to_datetime` on one cell of the `beginTime` column, for the value
shapes the upstream delivers: an ISO timestamp string parses to a
timestamp, JSON `null` becomes `NaT` (modelled as `none`), and anything
unparseable raises. -/
def to_datetime : JValue → Except String (Option Int)
  | .null => .ok none
  | .str s =>
    match parseTimestamp s with
    | some t => .ok (some t)
    | none => .error "to_datetime: unable to parse timestamp"
  | _ => .error "to_datetime: unsupported value"

/-- Calendar day (UTC) of a timestamp in minutes since epoch. -/
def dayOf (t : Int) : Int := Int.fdiv t 1440

/-- `df.set_index('beginTime').resample('D')['flrID'].count()` (app.py line
138): pairs of (timestamp-or-NaT, flrID); one bucket per calendar day from
the earliest to the latest valid timestamp, counting per day the rows whose
`flrID` cell is non-null (pandas `count()` skips nulls; rows with a `NaT`
index belong to no bucket); empty when no valid timestamp exists. -/
def resampleDailyCount (pairs : List (Option Int × JValue)) : List (Int × Nat) :=
  let days := (pairs.filterMap Prod.fst).map dayOf
  match days.min?, days.max? with
  | some lo, some hi =>
    (List.range (hi + 1 - lo).toNat).map fun (i : Nat) =>
      (lo + (i : Int), pairs.countP fun p =>
        decide (p.1.map dayOf = some (lo + (i : Int)) ∧ p.2 ≠ JValue.null))
  | _, _ => []

/-- Intensity derivation of the Intensity Scatter view (app.py line 147):
`lambda x: ord(x[0]) - 65` on one class-designation string; `x[0]` raises
`IndexError` on the empty string. -/
def intensityOfClass (x : String) : Except String Int :=
  match x.data with
  | [] => .error "IndexError: string index out of range"
  | c :: _ => .ok ((c.toNat : Int) - 65)

/-- The same lambda on one raw cell of the `classType` column: subscripting
then `ord` fails on the non-string values (null, numbers, lists). -/
def intensityOfValue : JValue → Except String Int
  | .str s => intensityOfClass s
  | _ => .error "TypeError: value is not a string"

/-- The Time Series view's data (app.py lines 137–138): parse the
`beginTime` column, then resample daily counting non-null `flrID`. -/
def timeSeries (df : List FlareRow) : Except String (List (Int × Nat)) := do
  let beginCol ← getColumn df "beginTime" (·.beginTime)
  let times ← mapColumn to_datetime beginCol
  return resampleDailyCount (times.zip (df.map (·.flrID)))

/-- The Intensity Scatter view's y-column (app.py line 147):
`df['classType'].apply(lambda x: ord(x[0]) - 65)`. -/
def intensityColumn (df : List FlareRow) : Except String (List Int) := do
  let classCol ← getColumn df "classType" (·.classType)
  mapColumn intensityOfValue classCol

/-- Everything the page shows on a successful run: the total-count display
and the data of the three views (pie slices; (day, count) timeline;
(timestamp, intensity) scatter points). -/
structure RenderModel where
  total : Nat
  pie : List (JValue × Nat)
  timeline : List (Int × Nat)
  scatter : List (Option Int × Int)
deriving DecidableEq, Repr

/-- The chart-rendering block of `main` (app.py lines 121–159), in source
order: total count, pie over `classType`, timeline over parsed `beginTime`,
scatter of intensity per row; the first raising view aborts the rest. -/
def renderViews (df : List FlareRow) : Except String RenderModel := do
  let classCol ← getColumn df "classType" (·.classType)
  let pie := value_counts classCol
  let beginCol ← getColumn df "beginTime" (·.beginTime)
  let times ← mapColumn to_datetime beginCol
  let timeline := resampleDailyCount (times.zip (df.map (·.flrID)))
  let classCol2 ← getColumn df "classType" (·.classType)
  let intensities ← mapColumn intensityOfValue classCol2
  return ⟨df.length, pie, timeline, times.zip intensities⟩

/-- Outcome of one user-triggered run of the page: invalid-range error, a
failure in fetch or transform, a failure while rendering the views (the
total count is already on the page when a view raises, hence it is carried),
or a fully rendered page. -/
inductive RunResult where
  | rangeError (msg : String)
  | fetchFailure (msg : String)
  | transformFailure (msg : String)
  | renderFailure (total : Nat) (msg : String)
  | rendered (model : RenderModel)
deriving DecidableEq, Repr

/-- One press of the Analyze button in `main` (app.py lines 111–162): if
`start_date ≤ end_date`, fetch (the HTTP exchange is abstracted as a
function producing the upstream response; applying it is issuing the
request), transform, render; otherwise show the inline range error and do
nothing else — in the source the date check guards the whole button block,
so no fetch happens on an invalid range. -/
def run (start_date end_date : Int) (fetchResponse : Unit → HttpResponse) : RunResult :=
  if start_date ≤ end_date then
    match get_solar_flare_data (fetchResponse ()) with
    | .error e => .fetchFailure e
    | .ok data =>
      match process_data data with
      | .error e => .transformFailure e
      | .ok df =>
        match renderViews df with
        | .error e => .renderFailure df.length e
        | .ok m => .rendered m
  else
    .rangeError "Error: End date must be after start date."

/-! ## General lemmas about the embedded operations -/

theorem except_bind_ok {α β : Type} (a : α) (f : α → Except String β) :
    (Except.ok a >>= f) = f a := rfl

theorem except_bind_error {α β : Type} (e : String) (f : α → Except String β) :
    ((Except.error e : Except String α) >>= f) = Except.error e := rfl

theorem mapColumn_error_of_mem {β : Type} {f : JValue → Except String β}
    {xs : List JValue} {x : JValue} (hx : x ∈ xs) (he : ∀ v, f x ≠ .ok v) :
    ∃ msg, mapColumn f xs = .error msg := by
  induction xs with
  | nil => cases hx
  | cons y ys ih =>
    cases hy : f y with
    | error e => exact ⟨e, by simp [mapColumn, hy, except_bind_error]⟩
    | ok v =>
      rcases List.mem_cons.mp hx with rfl | hmem
      · exact absurd hy (he v)
      · obtain ⟨msg, hmsg⟩ := ih hmem
        exact ⟨msg, by simp [mapColumn, hy, hmsg, except_bind_ok, except_bind_error]⟩

/-- The seven fields `process_data` reads with bracket access, in source
order (app.py lines 30–36); a record lacking any of them makes the loop
body raise `KeyError`. -/
def bracketFields : List String :=
  ["flrID", "beginTime", "peakTime", "endTime", "classType", "sourceLocation",
   "activeRegionNum"]

/-- A record carries all seven bracket-accessed fields. -/
def hasBracketFields (r : JRecord) : Bool :=
  bracketFields.all fun k => (r.lookup k).isSome

/-- Shape of an optional-list field per the data model: absent, JSON null,
or a JSON list. -/
def optListOk (v : Option JValue) : Prop :=
  v = none ∨ v = some .null ∨ ∃ xs, v = some (.list xs)

/-- Derived count of an optional-list field: the list's length when
present, 0 when absent or null. -/
def optListLen : Option JValue → Nat
  | some (.list xs) => xs.length
  | _ => 0

theorem pyLen_orEmptyList_list (xs : JList) :
    pyLen (orEmptyList (.list xs)) = .ok xs.length := by
  cases xs <;> rfl

theorem pyLen_optField (v : Option JValue) (hv : optListOk v) :
    pyLen (orEmptyList (v.getD (.list .nil))) = .ok (optListLen v) := by
  rcases hv with rfl | rfl | ⟨xs, rfl⟩
  · rfl
  · rfl
  · simpa [Option.getD, optListLen] using pyLen_orEmptyList_list xs

theorem processRecord_ok_of_fields (r : JRecord) (v1 v2 v3 v4 v5 v6 v7 : JValue)
    (h1 : r.lookup "flrID" = some v1) (h2 : r.lookup "beginTime" = some v2)
    (h3 : r.lookup "peakTime" = some v3) (h4 : r.lookup "endTime" = some v4)
    (h5 : r.lookup "classType" = some v5) (h6 : r.lookup "sourceLocation" = some v6)
    (h7 : r.lookup "activeRegionNum" = some v7)
    (hle : optListOk (r.lookup "linkedEvents"))
    (hin : optListOk (r.lookup "instruments")) :
    processRecord r =
      .ok ⟨v1, v2, v3, v4, v5, v6, v7, optListLen (r.lookup "linkedEvents"),
           optListLen (r.lookup "instruments")⟩ := by
  simp [processRecord, JRecord.getItem, JRecord.getD, h1, h2, h3, h4, h5, h6, h7,
    pyLen_optField _ hle, pyLen_optField _ hin, except_bind_ok]

/-! ## Claims -/

/-- C1, counterexample. The claim says the Intensity Scatter derivation
maps the leading class letter through the 5-step table A→0, B→5, C→10,
M→15, X→20, in particular "M2.3" → 15 and "X1.0" → 20. The source formula
`ord(x[0]) - 65` actually yields 12 for "M2.3" and 23 for "X1.0". -/
theorem intensity_M23_is_12_not_15 :
    intensityOfClass "M2.3" = .ok 12 ∧ intensityOfClass "M2.3" ≠ .ok 15 ∧
    intensityOfClass "X1.0" = .ok 23 ∧ intensityOfClass "X1.0" ≠ .ok 20 := by
  refine ⟨rfl, ?_, rfl, ?_⟩ <;> (intro h; simp [intensityOfClass] at h)

/-- C1, amended. For every row whose class designation is non-empty, the
derived intensity is `ord(first letter) - 65`: A→0, B→1, C→2, M→12, X→23
(no 5-unit scaling; the 0/5/10/15/20 values appear only as axis tick
positions in the source, not in the computed intensity). -/
theorem intensity_is_ord_first_letter_sub_65 (s : String) (c : Char) (cs : List Char)
    (h : s.data = c :: cs) :
    intensityOfValue (.str s) = .ok ((c.toNat : Int) - 65) ∧
    (c = 'A' → intensityOfValue (.str s) = .ok 0) ∧
    (c = 'B' → intensityOfValue (.str s) = .ok 1) ∧
    (c = 'C' → intensityOfValue (.str s) = .ok 2) ∧
    (c = 'M' → intensityOfValue (.str s) = .ok 12) ∧
    (c = 'X' → intensityOfValue (.str s) = .ok 23) := by
  have hmain : intensityOfValue (.str s) = .ok ((c.toNat : Int) - 65) := by
    show intensityOfClass s = _
    unfold intensityOfClass
    rw [h]
  refine ⟨hmain, ?_, ?_, ?_, ?_, ?_⟩ <;> (rintro rfl; rw [hmain]; rfl)

/-- Witness for C1's amended theorem at classType "M2.3". -/
theorem intensity_is_ord_first_letter_sub_65_witness :
    intensityOfValue (.str "M2.3") = .ok 12 :=
  (intensity_is_ord_first_letter_sub_65 "M2.3" 'M' ['2', '.', '3'] rfl).2.2.2.2.1 rfl

/-- C2: on an empty upstream JSON array the code does show a total count of
0 (carried by `renderFailure`), but the views then fail: the DataFrame
built from an empty list has no columns, so the Category Distribution
view's `df['classType']` raises `KeyError` and no view renders — contrary
to the claim that all three views render without error. -/
theorem empty_fetch_total_zero_views_raise :
    run 0 0 (fun _ => ⟨200, []⟩) = .renderFailure 0 "KeyError: classType" ∧
    process_data [] = .ok [] ∧
    renderViews [] = .error "KeyError: classType" := by
  refine ⟨?_, rfl, ?_⟩ <;> rfl

/-- C5: the fetch returns the decoded JSON array exactly when the upstream
status is 200; on any other status it raises an error whose message carries
the status code, and the whole run ends as a fetch failure — no table is
produced. -/
theorem fetch_ok_iff_status_200 (resp : HttpResponse) :
    (resp.status = 200 → get_solar_flare_data resp = .ok resp.body) ∧
    (resp.status ≠ 200 →
      get_solar_flare_data resp =
        .error ("API call failed with status code " ++ toString resp.status) ∧
      ∀ s e : Int, s ≤ e →
        run s e (fun _ => resp) =
          .fetchFailure ("API call failed with status code " ++ toString resp.status)) := by
  refine ⟨fun h => by simp [get_solar_flare_data, h], fun h => ⟨?_, fun s e hse => ?_⟩⟩
  · simp [get_solar_flare_data, h]
  · simp [run, hse, get_solar_flare_data, h]

/-- Witness for C5 at a 404 response and at a 200 response. -/
theorem fetch_ok_iff_status_200_witness :
    get_solar_flare_data ⟨404, []⟩ =
      .error ("API call failed with status code " ++ toString (404 : Nat)) ∧
    run 0 0 (fun _ => ⟨404, []⟩) =
      .fetchFailure ("API call failed with status code " ++ toString (404 : Nat)) ∧
    get_solar_flare_data ⟨200, [[]]⟩ = .ok [[]] :=
  ⟨((fetch_ok_iff_status_200 ⟨404, []⟩).2 (by decide)).1,
   ((fetch_ok_iff_status_200 ⟨404, []⟩).2 (by decide)).2 0 0 (by decide),
   (fetch_ok_iff_status_200 ⟨200, [[]]⟩).1 rfl⟩

/-- C6: when start > end the pipeline does not run — the page shows the
inline range error, and the result is independent of the fetcher, i.e. the
fetch is never issued. -/
theorem invalid_range_no_fetch_error_shown (s e : Int) (f g : Unit → HttpResponse)
    (h : e < s) :
    run s e f = .rangeError "Error: End date must be after start date." ∧
    run s e f = run s e g := by
  have hs : ¬ (s ≤ e) := by omega
  simp [run, hs]

/-- Witness for C6 at (start, end) = (1, 0) and two distinct fetchers. -/
theorem invalid_range_no_fetch_error_shown_witness :
    run 1 0 (fun _ => ⟨200, []⟩) =
      .rangeError "Error: End date must be after start date." ∧
    run 1 0 (fun _ => ⟨200, []⟩) = run 1 0 (fun _ => ⟨500, []⟩) :=
  invalid_range_no_fetch_error_shown 1 0 _ _ (by decide)

/-- A well-formed row whose class designation is the empty string, as
`process_data` would build it from a record with `classType` "". -/
def rowEmptyClass : FlareRow :=
  ⟨.str "F0", .str "2024-01-05T00:00Z", .str "2024-01-05T01:00Z",
   .str "2024-01-05T02:00Z", .str "", .null, .null, 0, 0⟩

/-- C10: the intensity derivation of the Intensity Scatter view takes the
first character of the class string without a guard, so a table containing
a row with the empty class designation makes the view fail; on non-empty
class strings the derivation always succeeds. -/
theorem intensity_scatter_fails_on_empty_class :
    (∀ df : List FlareRow, JValue.str "" ∈ df.map (·.classType) →
      ∃ msg, intensityColumn df = .error msg) ∧
    intensityOfClass "" = .error "IndexError: string index out of range" ∧
    (∀ s : String, s ≠ "" → ∃ v, intensityOfClass s = .ok v) := by
  refine ⟨fun df hdf => ?_, rfl, fun s hs => ?_⟩
  · have hne : ¬ df.isEmpty := by
      cases df with
      | nil => simp at hdf
      | cons a l => simp [List.isEmpty]
    obtain ⟨msg, hmsg⟩ :=
      mapColumn_error_of_mem (f := intensityOfValue) hdf
        (by intro v hv; simp [intensityOfValue, intensityOfClass] at hv)
    exact ⟨msg, by simp [intensityColumn, getColumn, hne, except_bind_ok, hmsg]⟩
  · cases hd : s.data with
    | nil => exact absurd (by cases s; simp_all) hs
    | cons c cs => exact ⟨(c.toNat : Int) - 65, by unfold intensityOfClass; rw [hd]⟩

/-- Witness for C10 at a one-row table with empty class designation and at
the non-empty class string "M". -/
theorem intensity_scatter_fails_on_empty_class_witness :
    (∃ msg, intensityColumn [rowEmptyClass] = .error msg) ∧
    (∃ v, intensityOfClass "M" = .ok v) :=
  ⟨intensity_scatter_fails_on_empty_class.1 [rowEmptyClass] (by simp [rowEmptyClass]),
   intensity_scatter_fails_on_empty_class.2.2 "M" (by simp)⟩

/-- A record carrying the five fields the claim calls required (identifier,
class designation, begin/peak/end time) and none of the fields it calls
optional. -/
def recMissingSource : JRecord :=
  [("flrID", .str "F1"), ("beginTime", .str "2024-01-05T00:00Z"),
   ("peakTime", .str "2024-01-05T01:00Z"), ("endTime", .str "2024-01-05T02:00Z"),
   ("classType", .str "M2.3")]

/-- C3, counterexample. The claim says a record with identifier, class
designation and the three times, but without the optional fields, is
transformed successfully. The source also bracket-accesses
`sourceLocation` and `activeRegionNum`, so this record aborts the
transformation with a `KeyError`. -/
theorem record_without_sourceLocation_fails :
    processRecord recMissingSource = .error "KeyError: sourceLocation" ∧
    process_data [recMissingSource] = .error "KeyError: sourceLocation" := ⟨rfl, rfl⟩

/-- C3, amended. For records whose linked-events and instruments fields
are, when present, null or lists (the shapes of the data model), the
transformation succeeds if and only if all seven bracket-accessed fields
are present: identifier, begin/peak/end time, class designation, source
location and active-region number; only linked-events and instruments may
be absent, in which case (or when null) they are counted as empty. -/
theorem process_record_ok_iff_bracket_fields (r : JRecord)
    (hle : optListOk (r.lookup "linkedEvents"))
    (hin : optListOk (r.lookup "instruments")) :
    (∃ row, processRecord r = .ok row) ↔ hasBracketFields r = true := by
  cases h1 : r.lookup "flrID" with
  | none =>
    constructor
    · rintro ⟨row, hrow⟩
      simp [processRecord, JRecord.getItem, h1, except_bind_error] at hrow
    · intro hall; simp [hasBracketFields, bracketFields, h1] at hall
  | some v1 =>
  cases h2 : r.lookup "beginTime" with
  | none =>
    constructor
    · rintro ⟨row, hrow⟩
      simp [processRecord, JRecord.getItem, h1, h2, except_bind_ok, except_bind_error] at hrow
    · intro hall; simp [hasBracketFields, bracketFields, h2] at hall
  | some v2 =>
  cases h3 : r.lookup "peakTime" with
  | none =>
    constructor
    · rintro ⟨row, hrow⟩
      simp [processRecord, JRecord.getItem, h1, h2, h3, except_bind_ok, except_bind_error] at hrow
    · intro hall; simp [hasBracketFields, bracketFields, h3] at hall
  | some v3 =>
  cases h4 : r.lookup "endTime" with
  | none =>
    constructor
    · rintro ⟨row, hrow⟩
      simp [processRecord, JRecord.getItem, h1, h2, h3, h4, except_bind_ok, except_bind_error] at hrow
    · intro hall; simp [hasBracketFields, bracketFields, h4] at hall
  | some v4 =>
  cases h5 : r.lookup "classType" with
  | none =>
    constructor
    · rintro ⟨row, hrow⟩
      simp [processRecord, JRecord.getItem, h1, h2, h3, h4, h5, except_bind_ok,
        except_bind_error] at hrow
    · intro hall; simp [hasBracketFields, bracketFields, h5] at hall
  | some v5 =>
  cases h6 : r.lookup "sourceLocation" with
  | none =>
    constructor
    · rintro ⟨row, hrow⟩
      simp [processRecord, JRecord.getItem, h1, h2, h3, h4, h5, h6, except_bind_ok,
        except_bind_error] at hrow
    · intro hall; simp [hasBracketFields, bracketFields, h6] at hall
  | some v6 =>
  cases h7 : r.lookup "activeRegionNum" with
  | none =>
    constructor
    · rintro ⟨row, hrow⟩
      simp [processRecord, JRecord.getItem, h1, h2, h3, h4, h5, h6, h7, except_bind_ok,
        except_bind_error] at hrow
    · intro hall; simp [hasBracketFields, bracketFields, h7] at hall
  | some v7 =>
    constructor
    · intro _
      simp [hasBracketFields, bracketFields, h1, h2, h3, h4, h5, h6, h7]
    · intro _
      exact ⟨_, processRecord_ok_of_fields r v1 v2 v3 v4 v5 v6 v7 h1 h2 h3 h4 h5 h6 h7 hle hin⟩

/-- Witness for C3's amended theorem: a full record on the left-to-right
direction and the `sourceLocation`-less record on the missing-field
direction. -/
theorem process_record_ok_iff_bracket_fields_witness :
    (∃ row, processRecord (recMissingSource ++
      [("sourceLocation", .null), ("activeRegionNum", .null)]) = .ok row) ∧
    ¬ (∃ row, processRecord recMissingSource = .ok row) :=
  ⟨(process_record_ok_iff_bracket_fields _ (by simp [optListOk, recMissingSource])
      (by simp [optListOk, recMissingSource])).mpr (by decide),
   fun hrow => by
    have := (process_record_ok_iff_bracket_fields recMissingSource
      (by simp [optListOk, recMissingSource])
      (by simp [optListOk, recMissingSource])).mp hrow
    simp [hasBracketFields, bracketFields, recMissingSource] at this⟩

/-- C7: for every record sequence the transformation accepts, it emits
exactly one row per input record, in input order: the output length equals
the input length and the i-th row is the transform of the i-th record. -/
theorem process_data_preserves_length_and_order (data : List JRecord)
    (rows : List FlareRow) (h : process_data data = .ok rows) :
    rows.length = data.length ∧
    ∀ i, i < data.length → ∃ rec row,
      data[i]? = some rec ∧ rows[i]? = some row ∧ processRecord rec = .ok row := by
  induction data generalizing rows with
  | nil =>
    simp only [process_data] at h
    cases h
    simp
  | cons rec rest ih =>
    simp only [process_data] at h
    cases hr : processRecord rec with
    | error e => rw [hr, except_bind_error] at h; cases h
    | ok row =>
      rw [hr, except_bind_ok] at h
      cases hrest : process_data rest with
      | error e => rw [hrest, except_bind_error] at h; cases h
      | ok rows' =>
        rw [hrest, except_bind_ok] at h
        cases h
        obtain ⟨hlen, hord⟩ := ih rows' hrest
        refine ⟨by simp [hlen], fun i hi => ?_⟩
        cases i with
        | zero => exact ⟨rec, row, by simp, by simp, hr⟩
        | succ n =>
          obtain ⟨r', w', hr', hw', hok⟩ := hord n (by simpa using hi)
          exact ⟨r', w', by simpa using hr', by simpa using hw', hok⟩

/-- A full record as the upstream delivers it. -/
def recFull : JRecord :=
  [("flrID", .str "F1"), ("beginTime", .str "2024-01-05T00:00Z"),
   ("peakTime", .str "2024-01-05T01:00Z"), ("endTime", .str "2024-01-05T02:00Z"),
   ("classType", .str "M2.3"), ("sourceLocation", .str "S10E20"),
   ("activeRegionNum", .num 13536)]

/-- A record with null/absent optional fields and two instruments. -/
def recNullOpt : JRecord :=
  [("flrID", .str "F2"), ("beginTime", .str "2024-01-08T12:30Z"),
   ("peakTime", .null), ("endTime", .null), ("classType", .str "X1.0"),
   ("sourceLocation", .null), ("activeRegionNum", .null),
   ("linkedEvents", .null), ("instruments", .list (.cons .null (.cons .null .nil)))]

/-- The two rows `process_data` builds from `recFull` and `recNullOpt`. -/
def procRows : List FlareRow :=
  [⟨.str "F1", .str "2024-01-05T00:00Z", .str "2024-01-05T01:00Z",
    .str "2024-01-05T02:00Z", .str "M2.3", .str "S10E20", .num 13536, 0, 0⟩,
   ⟨.str "F2", .str "2024-01-08T12:30Z", .null, .null, .str "X1.0", .null, .null, 0, 2⟩]

/-- Witness for C7 at a concrete two-record input. -/
theorem process_data_preserves_length_and_order_witness :
    procRows.length = [recFull, recNullOpt].length ∧
    ∀ i, i < [recFull, recNullOpt].length → ∃ rec row,
      [recFull, recNullOpt][i]? = some rec ∧ procRows[i]? = some row ∧
      processRecord rec = .ok row :=
  process_data_preserves_length_and_order [recFull, recNullOpt] procRows rfl

/-- C8: for every record carrying the seven bracket-accessed fields whose
optional list fields are absent, null or lists, the transformation
succeeds (a null or absent optional list is never an error) and the two
derived counts — non-negative by construction (`Nat`) — equal the length
of the corresponding list when present and 0 when the field is null or
absent. -/
theorem optional_list_counts (r : JRecord) (hfields : hasBracketFields r = true)
    (hle : optListOk (r.lookup "linkedEvents"))
    (hin : optListOk (r.lookup "instruments")) :
    ∃ row, processRecord r = .ok row ∧
      row.linkedEvents = optListLen (r.lookup "linkedEvents") ∧
      row.instruments = optListLen (r.lookup "instruments") ∧
      ((r.lookup "linkedEvents" = none ∨ r.lookup "linkedEvents" = some .null) →
        row.linkedEvents = 0) ∧
      (∀ xs, r.lookup "linkedEvents" = some (.list xs) →
        row.linkedEvents = xs.length) ∧
      ((r.lookup "instruments" = none ∨ r.lookup "instruments" = some .null) →
        row.instruments = 0) ∧
      (∀ xs, r.lookup "instruments" = some (.list xs) →
        row.instruments = xs.length) := by
  simp only [hasBracketFields, bracketFields, List.all_cons, List.all_nil,
    Bool.and_eq_true, Option.isSome_iff_exists, and_true] at hfields
  obtain ⟨⟨v1, h1⟩, ⟨v2, h2⟩, ⟨v3, h3⟩, ⟨v4, h4⟩, ⟨v5, h5⟩, ⟨v6, h6⟩, ⟨v7, h7⟩⟩ := hfields
  refine ⟨_, processRecord_ok_of_fields r v1 v2 v3 v4 v5 v6 v7 h1 h2 h3 h4 h5 h6 h7 hle hin,
    rfl, rfl, ?_, ?_, ?_, ?_⟩
  · rintro (hv | hv) <;> simp [hv, optListLen]
  · intro xs hv; simp [hv, optListLen]
  · rintro (hv | hv) <;> simp [hv, optListLen]
  · intro xs hv; simp [hv, optListLen]

/-- Witness for C8 at `recNullOpt`: null linked-events count 0, two
instruments count 2. -/
theorem optional_list_counts_witness :
    ∃ row, processRecord recNullOpt = .ok row ∧
      row.linkedEvents = optListLen (recNullOpt.lookup "linkedEvents") ∧
      row.instruments = optListLen (recNullOpt.lookup "instruments") ∧
      ((recNullOpt.lookup "linkedEvents" = none ∨
        recNullOpt.lookup "linkedEvents" = some .null) → row.linkedEvents = 0) ∧
      (∀ xs, recNullOpt.lookup "linkedEvents" = some (.list xs) →
        row.linkedEvents = xs.length) ∧
      ((recNullOpt.lookup "instruments" = none ∨
        recNullOpt.lookup "instruments" = some .null) → row.instruments = 0) ∧
      (∀ xs, recNullOpt.lookup "instruments" = some (.list xs) →
        row.instruments = xs.length) :=
  optional_list_counts recNullOpt (by decide) (Or.inr (Or.inl (by decide)))
    (Or.inr (Or.inr ⟨.cons .null (.cons .null .nil), by decide⟩))

/-- The contiguous run of calendar days from `lo` to `hi` inclusive. -/
def intervalList (lo hi : Int) : List Int :=
  (List.range (hi + 1 - lo).toNat).map fun (i : Nat) => lo + (i : Int)

/-- Parsed `beginTime` timestamp of a row, when its cell is a parseable
timestamp string. -/
def rowTime (row : FlareRow) : Option Int :=
  match row.beginTime with
  | .str s => parseTimestamp s
  | _ => none

/-- A row conforming to the data model as far as the Time Series view
reads it: `beginTime` is a timestamp string that parses, and `flrID` is
non-null (so pandas `count()` counts the row). -/
def wfRow (row : FlareRow) : Prop :=
  (∃ s, row.beginTime = .str s) ∧ rowTime row ≠ none ∧ row.flrID ≠ .null

/-- Calendar days of the rows' parsed begin times. -/
def beginDays (df : List FlareRow) : List Int :=
  (df.filterMap rowTime).map dayOf

/-- Day key of one (timestamp, flrID) pair as the resampled count sees it:
no key when the row is uncounted (null id), else the calendar day. -/
def keyOf (p : Option Int × JValue) : Option Int :=
  if p.2 = JValue.null then none else p.1.map dayOf

theorem keyOf_decide (d : Int) (p : Option Int × JValue) :
    decide (p.1.map dayOf = some d ∧ p.2 ≠ JValue.null) = decide (keyOf p = some d) := by
  by_cases h2 : p.2 = JValue.null <;> simp [keyOf, h2]

theorem sum_range_ite (d lo : Int) (n : Nat) :
    ((List.range n).map fun (i : Nat) => if d = lo + (i : Int) then (1 : Nat) else 0).sum
    = if lo ≤ d ∧ d < lo + (n : Int) then 1 else 0 := by
  induction n with
  | zero =>
    have h : ¬ (lo ≤ d ∧ d < lo + ((0 : Nat) : Int)) := by omega
    simp only [List.range_zero, List.map_nil, List.sum_nil]
    rw [if_neg h]
  | succ n ih =>
    rw [List.range_succ, List.map_append, List.sum_append, ih]
    simp only [List.map_cons, List.map_nil, List.sum_cons, List.sum_nil]
    split_ifs <;> omega

theorem countP_key_sum {α : Type} (l : List α) (g : α → Option Int) (lo : Int) (n : Nat) :
    ((List.range n).map fun (i : Nat) =>
      l.countP fun a => decide (g a = some (lo + (i : Int)))).sum
    = l.countP fun a => decide (∃ d, g a = some d ∧ lo ≤ d ∧ d < lo + (n : Int)) := by
  induction l with
  | nil => simp
  | cons a t ih =>
    simp only [List.countP_cons, decide_eq_true_eq]
    rw [List.sum_map_add, ih]
    congr 1
    cases hga : g a with
    | none => simp [hga]
    | some d =>
      simp only [hga, Option.some_inj]
      rw [sum_range_ite d lo n]
      by_cases hc : lo ≤ d ∧ d < lo + (n : Int)
      · rw [if_pos hc, if_pos ⟨d, rfl, hc⟩]
      · rw [if_neg hc, if_neg ?_]
        rintro ⟨d1, hd1, hrest⟩
        rw [Option.some_inj] at hd1
        subst hd1
        exact hc hrest

theorem mapColumn_to_datetime (df : List FlareRow) (hwf : ∀ row ∈ df, wfRow row) :
    mapColumn to_datetime (df.map (·.beginTime)) = .ok (df.map rowTime) := by
  induction df with
  | nil => rfl
  | cons row t ih =>
    obtain ⟨⟨s, hs⟩, hne, _⟩ := hwf row (by simp)
    cases hts : parseTimestamp s with
    | none => exact absurd (by simp [rowTime, hs, hts]) hne
    | some t0 =>
      have h1 : to_datetime row.beginTime = .ok (some t0) := by
        rw [hs]; simp [to_datetime, hts]
      have h2 : rowTime row = some t0 := by simp [rowTime, hs, hts]
      have h3 := ih fun r hr => hwf r (by simp [hr])
      simp [mapColumn, h1, h3, except_bind_ok, h2]

theorem int_min?_eq_some (l : List Int) (a : Int) (h : l.min? = some a) :
    a ∈ l ∧ ∀ b ∈ l, a ≤ b :=
  (@List.min?_eq_some_iff Int a _ _ ⟨by intro a b h1 h2; exact le_antisymm h1 h2⟩
    (fun a => le_refl a) (fun a b => min_choice a b)
    (fun a b c => le_min_iff)).mp h

theorem int_max?_eq_some (l : List Int) (a : Int) (h : l.max? = some a) :
    a ∈ l ∧ ∀ b ∈ l, b ≤ a :=
  (@List.max?_eq_some_iff Int a _ _ ⟨by intro a b h1 h2; exact le_antisymm h1 h2⟩
    (fun a => le_refl a) (fun a b => max_choice a b)
    (fun a b c => max_le_iff)).mp h

theorem countP_day_eq_count (df : List FlareRow) (hwf : ∀ row ∈ df, wfRow row) (d : Int) :
    (df.countP fun row => decide ((rowTime row).map dayOf = some d))
    = (beginDays df).count d := by
  induction df with
  | nil => rfl
  | cons row t ih =>
    obtain ⟨⟨s, hs⟩, hne, _⟩ := hwf row (by simp)
    cases hts : rowTime row with
    | none => exact absurd hts hne
    | some t0 =>
      have h3 := ih fun r hr => hwf r (by simp [hr])
      simp only [List.countP_cons, h3, beginDays, List.filterMap_cons, hts,
        List.map_cons, List.count_cons, beginDays] at *
      have hbeq : ((dayOf t0 == d) = true) = (dayOf t0 = d) := by simp
      simp [hts, Int.add_comm, hbeq]

theorem resample_master (df : List FlareRow) (hne : df ≠ [])
    (hwf : ∀ row ∈ df, wfRow row) :
    ∃ buckets lo hi,
      timeSeries df = .ok buckets ∧
      (beginDays df).min? = some lo ∧
      (beginDays df).max? = some hi ∧
      buckets.map Prod.fst = intervalList lo hi ∧
      (buckets.map Prod.snd).sum = df.length ∧
      (∀ d : Int, lo ≤ d → d ≤ hi → (d, (beginDays df).count d) ∈ buckets) ∧
      (∀ dc ∈ buckets, lo ≤ dc.1 ∧ dc.1 ≤ hi) := by
  have hcol : getColumn df "beginTime" (·.beginTime) = .ok (df.map (·.beginTime)) := by
    cases df with
    | nil => exact absurd rfl hne
    | cons row t => simp [getColumn, List.isEmpty]
  have hdays : ((df.map fun row => (rowTime row, row.flrID)).filterMap Prod.fst).map dayOf
      = beginDays df := by
    rw [List.filterMap_map]; rfl
  have hbne : beginDays df ≠ [] := by
    cases df with
    | nil => exact absurd rfl hne
    | cons row t =>
      obtain ⟨⟨s, hs⟩, hrt, _⟩ := hwf row (by simp)
      cases hts : rowTime row with
      | none => exact absurd hts hrt
      | some t0 => simp [beginDays, List.filterMap_cons, hts]
  obtain ⟨lo, hmin⟩ : ∃ lo, (beginDays df).min? = some lo := by
    cases h : (beginDays df).min? with
    | none => exact absurd (List.min?_eq_none_iff.mp h) hbne
    | some lo => exact ⟨lo, rfl⟩
  obtain ⟨hi, hmax⟩ : ∃ hi, (beginDays df).max? = some hi := by
    cases h : (beginDays df).max? with
    | none => exact absurd (List.max?_eq_none_iff.mp h) hbne
    | some hi => exact ⟨hi, rfl⟩
  obtain ⟨hlomem, hlole⟩ := int_min?_eq_some _ lo hmin
  obtain ⟨hhimem, hhile⟩ := int_max?_eq_some _ hi hmax
  have hlohi : lo ≤ hi := hlole hi hhimem
  have hcast : (((hi + 1 - lo).toNat : Int)) = hi + 1 - lo := Int.toNat_of_nonneg (by omega)
  have htds : timeSeries df =
      .ok (resampleDailyCount (df.map fun row => (rowTime row, row.flrID))) := by
    simp [timeSeries, hcol, mapColumn_to_datetime df hwf, except_bind_ok, List.zip_map']
  have hres : resampleDailyCount (df.map fun row => (rowTime row, row.flrID)) =
      (List.range (hi + 1 - lo).toNat).map (fun (i : Nat) =>
        (lo + (i : Int), (df.map fun row => (rowTime row, row.flrID)).countP fun p =>
          decide (p.1.map dayOf = some (lo + (i : Int)) ∧ p.2 ≠ JValue.null))) := by
    rw [resampleDailyCount, hdays, hmin, hmax]
  have hmemday : ∀ row ∈ df, ∀ t0, rowTime row = some t0 →
      dayOf t0 ∈ beginDays df := by
    intro row hrow t0 hts
    exact List.mem_map_of_mem dayOf (List.mem_filterMap.mpr ⟨row, hrow, hts⟩)
  have hcnt : ∀ d : Int,
      ((df.map fun row => (rowTime row, row.flrID)).countP fun p =>
        decide (p.1.map dayOf = some d ∧ p.2 ≠ JValue.null)) = (beginDays df).count d := by
    intro d
    rw [List.countP_map, ← countP_day_eq_count df hwf d]
    apply List.countP_congr
    intro row hrow
    obtain ⟨_, _, hflr⟩ := hwf row hrow
    simp [Function.comp, hflr]
  refine ⟨_, lo, hi, htds.trans (by rw [hres]), hmin, hmax, ?_, ?_, ?_, ?_⟩
  · rw [List.map_map, intervalList]
    rfl
  · rw [List.map_map]
    have hsnd : (Prod.snd ∘ fun (i : Nat) =>
        ((lo + (i : Int), (df.map fun row => (rowTime row, row.flrID)).countP fun p =>
          decide (p.1.map dayOf = some (lo + (i : Int)) ∧ p.2 ≠ JValue.null)) : Int × Nat))
        = fun (i : Nat) => (df.map fun row => (rowTime row, row.flrID)).countP
            fun p => decide (keyOf p = some (lo + (i : Int))) := by
      funext i
      simp only [Function.comp]
      exact congrArg (fun q => List.countP q _) (funext fun p => keyOf_decide _ p)
    rw [hsnd, countP_key_sum]
    rw [show ((df.map fun row => (rowTime row, row.flrID)).countP fun a =>
        decide (∃ d, keyOf a = some d ∧ lo ≤ d ∧ d < lo + ((hi + 1 - lo).toNat : Int)))
        = (df.map fun row => (rowTime row, row.flrID)).length from ?_, List.length_map]
    apply List.countP_eq_length.mpr
    intro p hp
    obtain ⟨row, hrow, rfl⟩ := List.mem_map.mp hp
    obtain ⟨⟨s, hs⟩, hrt, hflr⟩ := hwf row hrow
    cases hts : rowTime row with
    | none => exact absurd hts hrt
    | some t0 =>
      have hmem := hmemday row hrow t0 hts
      refine decide_eq_true ⟨dayOf t0, ?_, hlole _ hmem, ?_⟩
      · simp [keyOf, hflr, hts]
      · have := hhile _ hmem
        omega
  · intro d hlod hdhi
    have hin : (d - lo).toNat ∈ List.range (hi + 1 - lo).toNat := by
      rw [List.mem_range]
      omega
    refine List.mem_map.mpr ⟨(d - lo).toNat, hin, ?_⟩
    have hd : lo + (((d - lo).toNat : Int)) = d := by omega
    rw [hd, hcnt d]
  · intro dc hdc
    obtain ⟨i, hi2, rfl⟩ := List.mem_map.mp hdc
    rw [List.mem_range] at hi2
    constructor
    · show lo ≤ lo + (i : Int)
      omega
    · show lo + (i : Int) ≤ hi
      omega

/-- C9: for every non-empty sequence of rows conforming to the data model
(parseable `beginTime`, non-null identifier), the Time Series bucketing
succeeds and produces exactly one bucket per calendar day from the
earliest to the latest begin day with no gaps (the bucket days are the
full interval), and the bucket counts sum to the number of rows. -/
theorem time_series_buckets_contiguous_sum (df : List FlareRow) (hne : df ≠ [])
    (hwf : ∀ row ∈ df, wfRow row) :
    ∃ buckets lo hi,
      timeSeries df = .ok buckets ∧
      (beginDays df).min? = some lo ∧
      (beginDays df).max? = some hi ∧
      buckets.map Prod.fst = intervalList lo hi ∧
      (buckets.map Prod.snd).sum = df.length := by
  obtain ⟨b, lo, hi, h1, h2, h3, h4, h5, _, _⟩ := resample_master df hne hwf
  exact ⟨b, lo, hi, h1, h2, h3, h4, h5⟩

/-- The rows `rowJan5` and `rowJan8` used as concrete table inputs. -/
def rowJan5 : FlareRow :=
  ⟨.str "F1", .str "2024-01-05T00:00Z", .str "2024-01-05T01:00Z",
   .str "2024-01-05T02:00Z", .str "M2.3", .str "S10E20", .num 13536, 0, 0⟩

theorem wf_procRows : ∀ row ∈ procRows, wfRow row := by
  intro row hrow
  simp only [procRows, List.mem_cons, List.not_mem_nil, or_false] at hrow
  rcases hrow with rfl | rfl
  · exact ⟨⟨_, rfl⟩, by decide, by decide⟩
  · exact ⟨⟨_, rfl⟩, by decide, by decide⟩

/-- Witness for C9 at the concrete two-row table `procRows` (events on
2024-01-05 and 2024-01-08). -/
theorem time_series_buckets_contiguous_sum_witness :
    ∃ buckets lo hi,
      timeSeries procRows = .ok buckets ∧
      (beginDays procRows).min? = some lo ∧
      (beginDays procRows).max? = some hi ∧
      buckets.map Prod.fst = intervalList lo hi ∧
      (buckets.map Prod.snd).sum = procRows.length :=
  time_series_buckets_contiguous_sum procRows (by simp [procRows]) wf_procRows

/-- C4, counterexample. The claim requires the (day, count) sequence to be
contiguous across the full *requested* range with zero-count days filled
in. For the requested range 2024-01-01 (day 19723) .. 2024-01-10 (day
19732) and a single row whose event (2024-01-05, day 19727) lies inside
that range, the source's `resample('D')` output covers only day 19727 —
it contains no (19723, 0) entry, so it is not contiguous across the
requested range. -/
theorem time_series_ignores_requested_range :
    parseTimestamp "2024-01-01T00:00Z" = some (19723 * 1440) ∧
    parseTimestamp "2024-01-10T00:00Z" = some (19732 * 1440) ∧
    rowTime rowJan5 = some (19727 * 1440) ∧
    timeSeries [rowJan5] = .ok [(19727, 1)] ∧
    (19723 : Int) ≤ 19727 ∧ (19727 : Int) ≤ 19732 ∧
    ¬ ((19723, 0) ∈ [((19727 : Int), (1 : Nat))]) := by
  refine ⟨rfl, rfl, rfl, rfl, by decide, by decide, by decide⟩

/-- C4, amended. The Time Series output is contiguous with zero-filled
gap days only across the span of the events themselves: for well-formed
non-empty rows every day between the earliest and latest begin day gets a
bucket holding that day's row count (0 when no event), and no bucket lies
outside that span — the requested range plays no part. -/
theorem time_series_spans_event_days (df : List FlareRow) (hne : df ≠ [])
    (hwf : ∀ row ∈ df, wfRow row) :
    ∃ buckets lo hi,
      timeSeries df = .ok buckets ∧
      (beginDays df).min? = some lo ∧
      (beginDays df).max? = some hi ∧
      (∀ d : Int, lo ≤ d → d ≤ hi → (d, (beginDays df).count d) ∈ buckets) ∧
      (∀ dc ∈ buckets, lo ≤ dc.1 ∧ dc.1 ≤ hi) := by
  obtain ⟨b, lo, hi, h1, h2, h3, _, _, h6, h7⟩ := resample_master df hne hwf
  exact ⟨b, lo, hi, h1, h2, h3, h6, h7⟩

/-- Witness for C4's amended theorem at the two-row table `procRows`. -/
theorem time_series_spans_event_days_witness :
    ∃ buckets lo hi,
      timeSeries procRows = .ok buckets ∧
      (beginDays procRows).min? = some lo ∧
      (beginDays procRows).max? = some hi ∧
      (∀ d : Int, lo ≤ d → d ≤ hi → (d, (beginDays procRows).count d) ∈ buckets) ∧
      (∀ dc ∈ buckets, lo ≤ dc.1 ∧ dc.1 ≤ hi) :=
  time_series_spans_event_days procRows (by simp [procRows]) wf_procRows
